import Mathlib

/-!
Shallow embedding of the Pigment color library (src/src/colorspace.ts and
src/src/gamma.ts).  Colors are records of exact numbers: the rational-valued
color spaces (CMYK, HSV, saturating) are embedded over `ℚ`, the screen color
space with its real-power gamma functions over `ℝ`.  JavaScript's `%`
operator (truncated remainder) is modelled by `jsMod`.
-/

/-- EmissiveColor: a red/green/blue triple of linear light intensities. -/
structure EmissiveColor (α : Type) where
  red : α
  green : α
  blue : α

/-- ReflectiveColor: CMYK-style absorption fractions. -/
structure ReflectiveColor (α : Type) where
  cyan : α
  magenta : α
  yellow : α
  key : α

/-- HsvColor: hue (degrees), saturation and value. -/
structure HsvColor (α : Type) where
  hue : α
  saturation : α
  value : α

/-- A color space: an encode/decode pair between two representations
(interface ColorSpace in colorspace.ts). -/
structure ColorSpace (S D : Type) where
  encode : S → D
  decode : D → S

/-- Function clamp from colorspace.ts: clamps a value to the range 0-1. -/
def clamp {α : Type} [LinearOrderedField α] (value : α) : α :=
  if value < 0 then 0
  else if value > 1 then 1
  else value

/-- Truncation toward zero of a rational, as JavaScript truncates the
quotient when computing the remainder operator. -/
def ratTrunc (q : ℚ) : ℤ :=
  if q < 0 then ⌈q⌉ else ⌊q⌋

/-- JavaScript's remainder operator on rationals:
the remainder of a by b is a - b * trunc(a / b). -/
def jsMod (a b : ℚ) : ℚ :=
  a - b * (ratTrunc (a / b) : ℚ)

/-- Method SimpleCmykColorSpace.encode from colorspace.ts: each channel is
(1 - clamp(absorption)) * (1 - key); the key is not clamped. -/
def SimpleCmykColorSpace.encode (reflect : ReflectiveColor ℚ) : EmissiveColor ℚ :=
  let red := 1 - clamp reflect.cyan
  let green := 1 - clamp reflect.magenta
  let blue := 1 - clamp reflect.yellow
  { red := red * (1 - reflect.key)
    green := green * (1 - reflect.key)
    blue := blue * (1 - reflect.key) }

/-- Method SimpleCmykColorSpace.decode from colorspace.ts:
key = 1 - max(clamped channels); divides by 1 - key only when key < 1. -/
def SimpleCmykColorSpace.decode (emit : EmissiveColor ℚ) : ReflectiveColor ℚ :=
  let key := 1 - max (clamp emit.red) (max (clamp emit.green) (clamp emit.blue))
  if key < 1 then
    { cyan := 1 - clamp emit.red / (1 - key)
      magenta := 1 - clamp emit.green / (1 - key)
      yellow := 1 - clamp emit.blue / (1 - key)
      key := key }
  else
    { cyan := 0, magenta := 0, yellow := 0, key := key }

/-- The ColorSpace record built by new SimpleCmykColorSpace(). -/
def SimpleCmykColorSpace.space : ColorSpace (ReflectiveColor ℚ) (EmissiveColor ℚ) :=
  { encode := SimpleCmykColorSpace.encode, decode := SimpleCmykColorSpace.decode }

/-- Function oversaturation inside SaturatingColorSpace: the amount by which a
component exceeds 1. -/
def oversaturation (value : ℚ) : ℚ :=
  if value > 1 then value - 1 else 0

/-- Method SaturatingColorSpace.encode from colorspace.ts: each channel donates
its excess above 1, split evenly between the other two channels, then clamps. -/
def SaturatingColorSpace.encode (value : EmissiveColor ℚ) : EmissiveColor ℚ :=
  let redOver := oversaturation value.red
  let greenOver := oversaturation value.green
  let blueOver := oversaturation value.blue
  { red := clamp (value.red - redOver + (greenOver * (1/2) + blueOver * (1/2)))
    green := clamp (value.green - greenOver + (redOver * (1/2) + blueOver * (1/2)))
    blue := clamp (value.blue - blueOver + (redOver * (1/2) + greenOver * (1/2))) }

/-- The ColorSpace record built by new SaturatingColorSpace():
decoding goes straight through. -/
def SaturatingColorSpace.space : ColorSpace (EmissiveColor ℚ) (EmissiveColor ℚ) :=
  { encode := SaturatingColorSpace.encode, decode := fun value => value }

/-- Method SimpleHsvColorSpace.encode from colorspace.ts: hexagonal HSV-to-RGB
with h the absolute value of the remainder of hue by 360. -/
def SimpleHsvColorSpace.encode (hsv : HsvColor ℚ) : EmissiveColor ℚ :=
  let h := |jsMod hsv.hue 360|
  let s := clamp hsv.saturation
  let v := clamp hsv.value
  let c := s * v
  let x := c * (1 - |jsMod (h / 60) 2 - 1|)
  let m := v - c
  let rgb : ℚ × ℚ × ℚ :=
    if h < 60 then (c, x, 0)
    else if h < 120 then (x, c, 0)
    else if h < 180 then (0, c, x)
    else if h < 240 then (0, x, c)
    else if h < 300 then (x, 0, c)
    else (c, 0, x)
  { red := rgb.1 + m, green := rgb.2.1 + m, blue := rgb.2.2 + m }

/-- Method SimpleHsvColorSpace.decode from colorspace.ts.  Note the source
computes delta = cmin - cmax and only computes a hue when delta > 0. -/
def SimpleHsvColorSpace.decode (rgb : EmissiveColor ℚ) : HsvColor ℚ :=
  let r := clamp rgb.red
  let g := clamp rgb.green
  let b := clamp rgb.blue
  let cmax := max r (max g b)
  let cmin := min r (min g b)
  let delta := cmin - cmax
  let h : ℚ :=
    if delta > 0 then
      if cmax = r then 60 * jsMod ((g - b) / delta) 6
      else if cmax = g then 60 * ((b - r) / delta + 2)
      else if cmax = b then 60 * ((r - g) / delta + 4)
      else 0
    else 0
  let s : ℚ := if cmax > 0 then delta / cmax else 0
  { hue := h, saturation := s, value := cmax }

/-- The ColorSpace record built by new SimpleHsvColorSpace(). -/
def SimpleHsvColorSpace.space : ColorSpace (HsvColor ℚ) (EmissiveColor ℚ) :=
  { encode := SimpleHsvColorSpace.encode, decode := SimpleHsvColorSpace.decode }

/-- Function chainColorSpaces from colorspace.ts: sequential composition
through a shared intermediate representation. -/
def chainColorSpaces {S I D : Type} (first : ColorSpace S I) (second : ColorSpace I D) :
    ColorSpace S D :=
  { encode := fun value => second.encode (first.encode value)
    decode := fun value => first.decode (second.decode value) }

/-- Function reverseColorSpace from colorspace.ts: swaps the encode and decode
roles. -/
def reverseColorSpace {S D : Type} (toReverse : ColorSpace D S) : ColorSpace S D :=
  { encode := toReverse.decode, decode := toReverse.encode }

/-- Constant defaultDecodingGamma = 2.2 from gamma.ts. -/
def defaultDecodingGamma : ℝ := 2.2

/-- Constant defaultEncodingGamma = 1/2.2 from gamma.ts. -/
noncomputable def defaultEncodingGamma : ℝ := 1 / defaultDecodingGamma

/-- Function createGammaFunction from gamma.ts: the power transfer function
value ^ factor (real exponentiation, as Math.pow). -/
noncomputable def createGammaFunction (factor : ℝ) : ℝ → ℝ :=
  fun value => value ^ factor

/-- The ColorSpace record built by the ScreenColorSpace constructor: gamma
correction on each channel followed by clamping. -/
noncomputable def ScreenColorSpace (encodeGamma decodeGamma : ℝ → ℝ) :
    ColorSpace (EmissiveColor ℝ) (EmissiveColor ℝ) :=
  { encode := fun value =>
      { red := clamp (encodeGamma value.red)
        green := clamp (encodeGamma value.green)
        blue := clamp (encodeGamma value.blue) }
    decode := fun value =>
      { red := clamp (decodeGamma value.red)
        green := clamp (decodeGamma value.green)
        blue := clamp (decodeGamma value.blue) } }

/-- The screen color space built with both gamma arguments omitted, so that the
default gamma functions are used. -/
noncomputable def defaultScreenColorSpace : ColorSpace (EmissiveColor ℝ) (EmissiveColor ℝ) :=
  ScreenColorSpace (createGammaFunction defaultEncodingGamma)
    (createGammaFunction defaultDecodingGamma)

/-! ### Helper lemmas -/

lemma clamp_nonneg {α : Type} [LinearOrderedField α] (x : α) : 0 ≤ clamp x := by
  unfold clamp; split_ifs <;> linarith

lemma clamp_le_one {α : Type} [LinearOrderedField α] (x : α) : clamp x ≤ 1 := by
  unfold clamp; split_ifs <;> linarith

lemma clamp_eq_self {α : Type} [LinearOrderedField α] {x : α} (h0 : 0 ≤ x) (h1 : x ≤ 1) :
    clamp x = x := by
  unfold clamp; split_ifs <;> linarith

lemma jsMod_add_period (a : ℚ) (h : 0 ≤ a) : jsMod (a + 360) 360 = jsMod a 360 := by
  unfold jsMod ratTrunc
  have h1 : ¬ (a / 360 < 0) := by
    have : (0:ℚ) ≤ a / 360 := by positivity
    linarith
  have h2 : ¬ ((a + 360) / 360 < 0) := by
    have : (0:ℚ) ≤ (a + 360) / 360 := by positivity
    linarith
  rw [if_neg h2, if_neg h1]
  have h3 : (a + 360) / 360 = a / 360 + 1 := by ring
  rw [h3, Int.floor_add_one]
  push_cast
  ring

/-! ### Claim theorems -/

/-- Claim C1: the spec's HSV round-trip law fails on the code.  At the pure
green HSV color (hue 120, saturation 1, value 1), encode produces RGB (0,1,0)
but decode returns hue 0 and saturation -1, because decode computes
delta = cmin - cmax (never positive), so the hue branch is dead and
saturation is non-positive. -/
theorem hsv_roundtrip_fails_at_pure_green :
    SimpleHsvColorSpace.decode (SimpleHsvColorSpace.encode ⟨120, 1, 1⟩) = ⟨0, -1, 1⟩ := by
  norm_num [SimpleHsvColorSpace.encode, SimpleHsvColorSpace.decode, clamp, jsMod, ratTrunc,
    max_def, min_def]

/-- Claim C4: for every EmissiveColor input, SimpleHsvColorSpace.decode
returns hue 0 (the delta > 0 branch is unreachable since delta = cmin - cmax
is never positive); the saturation is always non-positive and equals
(cmin - cmax) / cmax whenever cmax > 0, all computed on clamped channels. -/
theorem hsv_decode_hue_zero_sat_nonpos (rgb : EmissiveColor ℚ) :
    (SimpleHsvColorSpace.decode rgb).hue = 0 ∧
    (SimpleHsvColorSpace.decode rgb).saturation ≤ 0 ∧
    (0 < max (clamp rgb.red) (max (clamp rgb.green) (clamp rgb.blue)) →
      (SimpleHsvColorSpace.decode rgb).saturation =
        (min (clamp rgb.red) (min (clamp rgb.green) (clamp rgb.blue)) -
          max (clamp rgb.red) (max (clamp rgb.green) (clamp rgb.blue))) /
          max (clamp rgb.red) (max (clamp rgb.green) (clamp rgb.blue))) := by
  have hle : min (clamp rgb.red) (min (clamp rgb.green) (clamp rgb.blue)) ≤
      max (clamp rgb.red) (max (clamp rgb.green) (clamp rgb.blue)) :=
    le_trans (min_le_left _ _) (le_max_left _ _)
  refine ⟨?_, ?_, ?_⟩
  · simp only [SimpleHsvColorSpace.decode]
    rw [if_neg (not_lt.mpr (sub_nonpos.mpr hle))]
  · simp only [SimpleHsvColorSpace.decode]
    by_cases hc : 0 < max (clamp rgb.red) (max (clamp rgb.green) (clamp rgb.blue))
    · rw [if_pos hc]
      exact div_nonpos_iff.mpr (Or.inr ⟨sub_nonpos.mpr hle, hc.le⟩)
    · rw [if_neg hc]
  · intro hc
    simp only [SimpleHsvColorSpace.decode]
    rw [if_pos hc]

/-- Witness for claim C4 at the concrete input (1, 1/2, 0). -/
theorem hsv_decode_hue_zero_sat_nonpos_witness :
    (SimpleHsvColorSpace.decode ⟨1, 1/2, 0⟩).hue = 0 ∧
    (SimpleHsvColorSpace.decode ⟨1, 1/2, 0⟩).saturation =
      (min (clamp (1:ℚ)) (min (clamp (1/2:ℚ)) (clamp (0:ℚ))) -
        max (clamp (1:ℚ)) (max (clamp (1/2:ℚ)) (clamp (0:ℚ)))) /
        max (clamp (1:ℚ)) (max (clamp (1/2:ℚ)) (clamp (0:ℚ))) :=
  ⟨(hsv_decode_hue_zero_sat_nonpos ⟨1, 1/2, 0⟩).1,
    (hsv_decode_hue_zero_sat_nonpos ⟨1, 1/2, 0⟩).2.2 (by norm_num [clamp, max_def])⟩

/-- Claim C8: the division-by-zero guards.  When the maximum clamped channel
of the CMYK decode input is 0 (so key = 1), decode returns zero chroma and
key 1 without dividing by 1 - key; when the maximum clamped channel of the
HSV decode input is 0, decode returns saturation 0 without dividing by cmax.
Both decodes are total functions of the embedding. -/
theorem decode_division_guards (e rgb : EmissiveColor ℚ)
    (he : max (clamp e.red) (max (clamp e.green) (clamp e.blue)) = 0)
    (hrgb : max (clamp rgb.red) (max (clamp rgb.green) (clamp rgb.blue)) = 0) :
    SimpleCmykColorSpace.decode e = ⟨0, 0, 0, 1⟩ ∧
    (SimpleHsvColorSpace.decode rgb).saturation = 0 := by
  constructor
  · simp only [SimpleCmykColorSpace.decode]
    rw [he]
    norm_num
  · simp only [SimpleHsvColorSpace.decode]
    rw [hrgb]
    norm_num

/-- Witness for claim C8 at the concrete input (0, -1, 0) for both decodes. -/
theorem decode_division_guards_witness :
    SimpleCmykColorSpace.decode ⟨0, -1, 0⟩ = ⟨0, 0, 0, 1⟩ ∧
    (SimpleHsvColorSpace.decode ⟨0, -1, 0⟩).saturation = 0 :=
  decode_division_guards ⟨0, -1, 0⟩ ⟨0, -1, 0⟩
    (by norm_num [clamp, max_def]) (by norm_num [clamp, max_def])

/-- Claim C9: chaining is associative.  For any color spaces a, b, c, the two
ways of chaining produce identical encode results and identical decode
results on every input. -/
theorem chainColorSpaces_assoc {S I1 I2 D : Type} (a : ColorSpace S I1)
    (b : ColorSpace I1 I2) (c : ColorSpace I2 D) (s : S) (d : D) :
    (chainColorSpaces (chainColorSpaces a b) c).encode s =
      (chainColorSpaces a (chainColorSpaces b c)).encode s ∧
    (chainColorSpaces (chainColorSpaces a b) c).decode d =
      (chainColorSpaces a (chainColorSpaces b c)).decode d :=
  ⟨rfl, rfl⟩

/-- Claim C10: reversing a color space twice is behaviorally identical to the
original: the encodes agree and the decodes agree on every input. -/
theorem reverseColorSpace_involutive {S D : Type} (cs : ColorSpace S D) (s : S) (d : D) :
    (reverseColorSpace (reverseColorSpace cs)).encode s = cs.encode s ∧
    (reverseColorSpace (reverseColorSpace cs)).decode d = cs.decode d :=
  ⟨rfl, rfl⟩

/-- Claim C6 counterexample: hue cyclicity fails for negative hue, because
encode takes the absolute value of the JavaScript remainder: hue -10 maps to
sector 10 degrees while hue 350 maps to sector 350 degrees. -/
theorem hsv_encode_hue_period_counterexample :
    SimpleHsvColorSpace.encode ⟨-10, 1, 1⟩ ≠ SimpleHsvColorSpace.encode ⟨-10 + 360, 1, 1⟩ := by
  have ha : SimpleHsvColorSpace.encode ⟨-10, 1, 1⟩ = ⟨1, 1/6, 0⟩ := by
    norm_num [SimpleHsvColorSpace.encode, clamp, jsMod, ratTrunc, Int.ceil_neg, abs]
  have hb : SimpleHsvColorSpace.encode ⟨-10 + 360, 1, 1⟩ = ⟨1, 0, 1/6⟩ := by
    norm_num [SimpleHsvColorSpace.encode, clamp, jsMod, ratTrunc, Int.ceil_neg, abs]
  rw [ha, hb]
  intro hcon
  have hg := congrArg EmissiveColor.green hcon
  norm_num at hg

/-- Claim C6 (amended): for every HsvColor with non-negative hue,
SimpleHsvColorSpace.encode gives the same EmissiveColor for hue h and for
hue h + 360. -/
theorem hsv_encode_hue_period (hsv : HsvColor ℚ) (h : 0 ≤ hsv.hue) :
    SimpleHsvColorSpace.encode hsv =
      SimpleHsvColorSpace.encode ⟨hsv.hue + 360, hsv.saturation, hsv.value⟩ := by
  simp only [SimpleHsvColorSpace.encode]
  rw [jsMod_add_period hsv.hue h]

/-- Witness for claim C6 at hue 10. -/
theorem hsv_encode_hue_period_witness :
    SimpleHsvColorSpace.encode ⟨10, 1, 1⟩ = SimpleHsvColorSpace.encode ⟨10 + 360, 1, 1⟩ :=
  hsv_encode_hue_period ⟨10, 1, 1⟩ (by norm_num)

/-- Claim C3 counterexample: SimpleCmykColorSpace.encode does not clamp the
key, so a key of -1 yields a red channel of 2, outside the range 0-1. -/
theorem cmyk_encode_key_counterexample :
    (SimpleCmykColorSpace.encode ⟨0, 0, 0, -1⟩).red = 2 ∧
    ¬ (SimpleCmykColorSpace.encode ⟨0, 0, 0, -1⟩).red ≤ 1 := by
  norm_num [SimpleCmykColorSpace.encode, clamp]

lemma cmyk_channel_bounds (x k : ℚ) (hk0 : 0 ≤ k) (hk1 : k ≤ 1) :
    0 ≤ (1 - clamp x) * (1 - k) ∧ (1 - clamp x) * (1 - k) ≤ 1 := by
  have h1 := clamp_nonneg x
  have h2 := clamp_le_one x
  constructor <;> nlinarith

/-- Claim C3 (amended): SimpleCmykColorSpace.encode clamps out-of-range cyan,
magenta and yellow; whenever the key lies in the range 0-1, each channel of
the returned EmissiveColor lies in the range 0-1 (for a key outside 0-1 the
channels can leave that range, since the key is not clamped). -/
theorem cmyk_encode_channels_bounded (r : ReflectiveColor ℚ)
    (hk0 : 0 ≤ r.key) (hk1 : r.key ≤ 1) :
    (0 ≤ (SimpleCmykColorSpace.encode r).red ∧ (SimpleCmykColorSpace.encode r).red ≤ 1) ∧
    (0 ≤ (SimpleCmykColorSpace.encode r).green ∧ (SimpleCmykColorSpace.encode r).green ≤ 1) ∧
    (0 ≤ (SimpleCmykColorSpace.encode r).blue ∧ (SimpleCmykColorSpace.encode r).blue ≤ 1) := by
  simp only [SimpleCmykColorSpace.encode]
  exact ⟨cmyk_channel_bounds r.cyan r.key hk0 hk1,
    cmyk_channel_bounds r.magenta r.key hk0 hk1,
    cmyk_channel_bounds r.yellow r.key hk0 hk1⟩

/-- Witness for claim C3 at a reflective color with out-of-range cyan and
magenta and key 1/2. -/
theorem cmyk_encode_channels_bounded_witness :
    0 ≤ (SimpleCmykColorSpace.encode ⟨5, -3, 1/2, 1/2⟩).red ∧
    (SimpleCmykColorSpace.encode ⟨5, -3, 1/2, 1/2⟩).red ≤ 1 :=
  (cmyk_encode_channels_bounded ⟨5, -3, 1/2, 1/2⟩ (by norm_num) (by norm_num)).1

/-- Claim C5 counterexample: the saturating encode is not the identity on all
inputs with channels at most 1: a negative channel is clamped to 0. -/
theorem saturating_identity_counterexample :
    SaturatingColorSpace.encode ⟨-1, 0, 0⟩ ≠ ⟨-1, 0, 0⟩ := by
  have h : SaturatingColorSpace.encode ⟨-1, 0, 0⟩ = ⟨0, 0, 0⟩ := by
    norm_num [SaturatingColorSpace.encode, oversaturation, clamp]
  rw [h]
  intro hcon
  have hr := congrArg EmissiveColor.red hcon
  norm_num at hr

lemma oversaturation_of_le {x : ℚ} (h : x ≤ 1) : oversaturation x = 0 := by
  unfold oversaturation
  rw [if_neg (not_lt.mpr h)]

lemma oversaturation_of_lt {x : ℚ} (h : 1 < x) : oversaturation x = x - 1 := by
  unfold oversaturation
  rw [if_pos h]

/-- Claim C5 (amended): for every EmissiveColor with all channels in the range
0-1, SaturatingColorSpace.encode returns the input unchanged; for an input
with exactly one channel above 1 and the other two in the range 0-1, the
over-bright channel is reduced by its excess and each of the other two is
increased by half the excess, all then clamped to the range 0-1. -/
theorem saturating_encode_characterization (v w1 w2 w3 : EmissiveColor ℚ)
    (hv : 0 ≤ v.red ∧ v.red ≤ 1 ∧ 0 ≤ v.green ∧ v.green ≤ 1 ∧ 0 ≤ v.blue ∧ v.blue ≤ 1)
    (h1 : 1 < w1.red ∧ 0 ≤ w1.green ∧ w1.green ≤ 1 ∧ 0 ≤ w1.blue ∧ w1.blue ≤ 1)
    (h2 : 1 < w2.green ∧ 0 ≤ w2.red ∧ w2.red ≤ 1 ∧ 0 ≤ w2.blue ∧ w2.blue ≤ 1)
    (h3 : 1 < w3.blue ∧ 0 ≤ w3.red ∧ w3.red ≤ 1 ∧ 0 ≤ w3.green ∧ w3.green ≤ 1) :
    SaturatingColorSpace.encode v = v ∧
    SaturatingColorSpace.encode w1 =
      ⟨clamp (w1.red - (w1.red - 1)),
        clamp (w1.green + (w1.red - 1) * (1/2)),
        clamp (w1.blue + (w1.red - 1) * (1/2))⟩ ∧
    SaturatingColorSpace.encode w2 =
      ⟨clamp (w2.red + (w2.green - 1) * (1/2)),
        clamp (w2.green - (w2.green - 1)),
        clamp (w2.blue + (w2.green - 1) * (1/2))⟩ ∧
    SaturatingColorSpace.encode w3 =
      ⟨clamp (w3.red + (w3.blue - 1) * (1/2)),
        clamp (w3.green + (w3.blue - 1) * (1/2)),
        clamp (w3.blue - (w3.blue - 1))⟩ := by
  obtain ⟨hv1, hv2, hv3, hv4, hv5, hv6⟩ := hv
  obtain ⟨h1a, h1b, h1c, h1d, h1e⟩ := h1
  obtain ⟨h2a, h2b, h2c, h2d, h2e⟩ := h2
  obtain ⟨h3a, h3b, h3c, h3d, h3e⟩ := h3
  refine ⟨?_, ?_, ?_, ?_⟩
  · simp only [SaturatingColorSpace.encode, oversaturation_of_le hv2,
      oversaturation_of_le hv4, oversaturation_of_le hv6]
    have e1 : v.red - 0 + (0 * (1/2 : ℚ) + 0 * (1/2)) = v.red := by ring
    have e2 : v.green - 0 + (0 * (1/2 : ℚ) + 0 * (1/2)) = v.green := by ring
    have e3 : v.blue - 0 + (0 * (1/2 : ℚ) + 0 * (1/2)) = v.blue := by ring
    rw [e1, e2, e3, clamp_eq_self hv1 hv2, clamp_eq_self hv3 hv4, clamp_eq_self hv5 hv6]
  · simp only [SaturatingColorSpace.encode, oversaturation_of_lt h1a,
      oversaturation_of_le h1c, oversaturation_of_le h1e]
    have e1 : w1.red - (w1.red - 1) + (0 * (1/2 : ℚ) + 0 * (1/2)) = w1.red - (w1.red - 1) := by
      ring
    have e2 : w1.green - 0 + ((w1.red - 1) * (1/2 : ℚ) + 0 * (1/2)) =
        w1.green + (w1.red - 1) * (1/2) := by ring
    have e3 : w1.blue - 0 + ((w1.red - 1) * (1/2 : ℚ) + 0 * (1/2)) =
        w1.blue + (w1.red - 1) * (1/2) := by ring
    rw [e1, e2, e3]
  · simp only [SaturatingColorSpace.encode, oversaturation_of_lt h2a,
      oversaturation_of_le h2c, oversaturation_of_le h2e]
    have e1 : w2.red - 0 + ((w2.green - 1) * (1/2 : ℚ) + 0 * (1/2)) =
        w2.red + (w2.green - 1) * (1/2) := by ring
    have e2 : w2.green - (w2.green - 1) + (0 * (1/2 : ℚ) + 0 * (1/2)) =
        w2.green - (w2.green - 1) := by ring
    have e3 : w2.blue - 0 + (0 * (1/2 : ℚ) + (w2.green - 1) * (1/2)) =
        w2.blue + (w2.green - 1) * (1/2) := by ring
    rw [e1, e2, e3]
  · simp only [SaturatingColorSpace.encode, oversaturation_of_lt h3a,
      oversaturation_of_le h3c, oversaturation_of_le h3e]
    have e1 : w3.red - 0 + (0 * (1/2 : ℚ) + (w3.blue - 1) * (1/2)) =
        w3.red + (w3.blue - 1) * (1/2) := by ring
    have e2 : w3.green - 0 + (0 * (1/2 : ℚ) + (w3.blue - 1) * (1/2)) =
        w3.green + (w3.blue - 1) * (1/2) := by ring
    have e3 : w3.blue - (w3.blue - 1) + (0 * (1/2 : ℚ) + 0 * (1/2)) =
        w3.blue - (w3.blue - 1) := by ring
    rw [e1, e2, e3]

/-- Witness for claim C5: the identity case at the concrete in-range color
(1/2, 0, 1). -/
theorem saturating_encode_characterization_witness :
    SaturatingColorSpace.encode ⟨1/2, 0, 1⟩ = ⟨1/2, 0, 1⟩ :=
  (saturating_encode_characterization ⟨1/2, 0, 1⟩ ⟨3/2, 0, 1⟩ ⟨0, 2, 1/2⟩ ⟨1, 0, 5⟩
    (by norm_num) (by norm_num) (by norm_num) (by norm_num)).1

/-- Claim C2 counterexample: the CMYK round trip is not exact for every
reflective color with components in the range 0-1 and key below 1: decode
renormalizes the key to 1 minus the maximum channel, so (1/2, 1/2, 1/2, 0)
comes back as (0, 0, 0, 1/2). -/
theorem cmyk_roundtrip_counterexample :
    SimpleCmykColorSpace.decode (SimpleCmykColorSpace.encode ⟨1/2, 1/2, 1/2, 0⟩) ≠
      (⟨1/2, 1/2, 1/2, 0⟩ : ReflectiveColor ℚ) := by
  have h : SimpleCmykColorSpace.decode (SimpleCmykColorSpace.encode ⟨1/2, 1/2, 1/2, 0⟩) =
      ⟨0, 0, 0, 1/2⟩ := by
    norm_num [SimpleCmykColorSpace.encode, SimpleCmykColorSpace.decode, clamp, max_def]
  rw [h]
  intro hcon
  have hk := congrArg ReflectiveColor.key hcon
  norm_num at hk

/-- Claim C2 (amended): for every ReflectiveColor with cyan, magenta, yellow
and key in the range 0-1, key strictly below 1, and minimal chromatic
component 0 (the canonical CMYK form produced by decode), the round trip
decode(encode(r)) reproduces r exactly in all four components. -/
theorem cmyk_roundtrip_of_min_zero (r : ReflectiveColor ℚ)
    (hc0 : 0 ≤ r.cyan) (hc1 : r.cyan ≤ 1)
    (hm0 : 0 ≤ r.magenta) (hm1 : r.magenta ≤ 1)
    (hy0 : 0 ≤ r.yellow) (hy1 : r.yellow ≤ 1)
    (hk0 : 0 ≤ r.key) (hk1 : r.key < 1)
    (hmin : min r.cyan (min r.magenta r.yellow) = 0) :
    SimpleCmykColorSpace.decode (SimpleCmykColorSpace.encode r) = r := by
  obtain ⟨c, m, y, k⟩ := r
  dsimp only at hc0 hc1 hm0 hm1 hy0 hy1 hk0 hk1 hmin ⊢
  have hk' : (0:ℚ) < 1 - k := by linarith
  simp only [SimpleCmykColorSpace.encode]
  rw [clamp_eq_self hc0 hc1, clamp_eq_self hm0 hm1, clamp_eq_self hy0 hy1]
  have hr0 : 0 ≤ (1 - c) * (1 - k) := mul_nonneg (by linarith) hk'.le
  have hr1 : (1 - c) * (1 - k) ≤ 1 := by nlinarith
  have hg0 : 0 ≤ (1 - m) * (1 - k) := mul_nonneg (by linarith) hk'.le
  have hg1 : (1 - m) * (1 - k) ≤ 1 := by nlinarith
  have hb0 : 0 ≤ (1 - y) * (1 - k) := mul_nonneg (by linarith) hk'.le
  have hb1 : (1 - y) * (1 - k) ≤ 1 := by nlinarith
  simp only [SimpleCmykColorSpace.decode]
  rw [clamp_eq_self hr0 hr1, clamp_eq_self hg0 hg1, clamp_eq_self hb0 hb1]
  have hzero : c = 0 ∨ m = 0 ∨ y = 0 := by
    rcases le_total c (min m y) with h | h
    · left
      rw [min_eq_left h] at hmin
      exact hmin
    · rw [min_eq_right h] at hmin
      rcases le_total m y with h2 | h2
      · right; left
        rw [min_eq_left h2] at hmin
        exact hmin
      · right; right
        rw [min_eq_right h2] at hmin
        exact hmin
  have hM : max ((1 - c) * (1 - k)) (max ((1 - m) * (1 - k)) ((1 - y) * (1 - k))) = 1 - k := by
    apply le_antisymm
    · apply max_le
      · nlinarith
      · apply max_le <;> nlinarith
    · rcases hzero with h | h | h
      · subst h
        calc (1:ℚ) - k = (1 - 0) * (1 - k) := by ring
          _ ≤ _ := le_max_left _ _
      · subst h
        calc (1:ℚ) - k = (1 - 0) * (1 - k) := by ring
          _ ≤ max ((1 - (0:ℚ)) * (1 - k)) ((1 - y) * (1 - k)) := le_max_left _ _
          _ ≤ _ := le_max_right _ _
      · subst h
        calc (1:ℚ) - k = (1 - 0) * (1 - k) := by ring
          _ ≤ max ((1 - m) * (1 - k)) ((1 - (0:ℚ)) * (1 - k)) := le_max_right _ _
          _ ≤ _ := le_max_right _ _
  rw [hM]
  rw [if_pos (by linarith : (1:ℚ) - (1 - k) < 1)]
  have hne : (1:ℚ) - k ≠ 0 := ne_of_gt hk'
  have hsimp : (1:ℚ) - (1 - (1 - k)) = 1 - k := by ring
  rw [hsimp]
  simp only [ReflectiveColor.mk.injEq]
  refine ⟨?_, ?_, ?_, by ring⟩
  · rw [mul_div_assoc, div_self hne, mul_one]
    ring
  · rw [mul_div_assoc, div_self hne, mul_one]
    ring
  · rw [mul_div_assoc, div_self hne, mul_one]
    ring

/-- Witness for claim C2 at the canonical reflective color (0, 1/2, 1/2, 1/2). -/
theorem cmyk_roundtrip_of_min_zero_witness :
    SimpleCmykColorSpace.decode (SimpleCmykColorSpace.encode ⟨0, 1/2, 1/2, 1/2⟩) =
      (⟨0, 1/2, 1/2, 1/2⟩ : ReflectiveColor ℚ) :=
  cmyk_roundtrip_of_min_zero ⟨0, 1/2, 1/2, 1/2⟩ (by norm_num) (by norm_num) (by norm_num)
    (by norm_num) (by norm_num) (by norm_num) (by norm_num) (by norm_num)
    (by norm_num [min_def])

lemma screen_channel_roundtrip (x : ℝ) (h0 : 0 ≤ x) (h1 : x ≤ 1) :
    clamp (createGammaFunction defaultDecodingGamma
      (clamp (createGammaFunction defaultEncodingGamma x))) = x := by
  have he0 : (0:ℝ) ≤ defaultEncodingGamma := by
    unfold defaultEncodingGamma defaultDecodingGamma
    norm_num
  have hx0 : 0 ≤ x ^ defaultEncodingGamma := Real.rpow_nonneg h0 _
  have hx1 : x ^ defaultEncodingGamma ≤ 1 := Real.rpow_le_one h0 h1 he0
  unfold createGammaFunction
  rw [clamp_eq_self hx0 hx1, ← Real.rpow_mul h0]
  have hmul : defaultEncodingGamma * defaultDecodingGamma = 1 := by
    unfold defaultEncodingGamma defaultDecodingGamma
    norm_num
  rw [hmul, Real.rpow_one, clamp_eq_self h0 h1]

/-- Claim C7: for the screen color space with the default gamma functions
(encoding gamma 1/2.2, decoding gamma 2.2), decode(encode(c)) equals c
exactly (hence within any floating tolerance) for every EmissiveColor whose
channels all lie in the range 0-1. -/
theorem screen_roundtrip_default (c : EmissiveColor ℝ)
    (hr0 : 0 ≤ c.red) (hr1 : c.red ≤ 1)
    (hg0 : 0 ≤ c.green) (hg1 : c.green ≤ 1)
    (hb0 : 0 ≤ c.blue) (hb1 : c.blue ≤ 1) :
    defaultScreenColorSpace.decode (defaultScreenColorSpace.encode c) = c := by
  simp only [defaultScreenColorSpace, ScreenColorSpace]
  rw [screen_channel_roundtrip c.red hr0 hr1, screen_channel_roundtrip c.green hg0 hg1,
    screen_channel_roundtrip c.blue hb0 hb1]

/-- Witness for claim C7 at the concrete screen color (1/2, 0, 1). -/
theorem screen_roundtrip_default_witness :
    defaultScreenColorSpace.decode (defaultScreenColorSpace.encode ⟨1/2, 0, 1⟩) =
      (⟨1/2, 0, 1⟩ : EmissiveColor ℝ) :=
  screen_roundtrip_default ⟨1/2, 0, 1⟩ (by norm_num) (by norm_num) (by norm_num) (by norm_num)
    (by norm_num) (by norm_num)
